import Mathlib

/-!
Shallow embedding of the `riir` tool-dispatch registry and agent loop
(src/function.rs, src/project.rs, src/main.rs).

Host functions may carry side effects through an explicit state type `σ`
(in the Rust source the effects live in closed-over `Arc<Project>` values);
external I/O outcomes (filesystem reads/writes, the model endpoint, the
build checker) are supplied as explicit oracle arguments.
-/

/-- Roles of chat messages (`openai::chat::ChatCompletionMessageRole`). -/
inductive ChatCompletionMessageRole where
  | System
  | User
  | Assistant
  | Function
deriving DecidableEq, Repr

/-- A tool invocation request issued by the model
(`openai::chat::ChatCompletionFunctionCall`): name plus raw argument text. -/
structure ChatCompletionFunctionCall where
  name : String
  arguments : String
deriving DecidableEq, Repr

/-- A conversation message (`openai::chat::ChatCompletionMessage`), restricted
to the fields the program reads or writes. -/
structure ChatCompletionMessage where
  role : ChatCompletionMessageRole
  content : Option String := none
  name : Option String := none
  function_call : Option ChatCompletionFunctionCall := none
deriving DecidableEq, Repr

/-- `DispatchError` from src/function.rs; the `serde_json::Error` payloads are
modelled as their diagnostic strings. -/
inductive DispatchError where
  | FunctionNotFound
  | Deserialize (diag : String)
  | Serialize (diag : String)
deriving DecidableEq, Repr

/-- A registered type-erased callable (`CallableFunction` in src/function.rs):
a name and a "text in, text out" closure.  The closure threads the effect
state `σ` explicitly. -/
structure CallableFunction (σ : Type) where
  name : String
  func : String → σ → Except DispatchError String × σ

/-- `CallableFunction::call`. -/
def CallableFunction.call (f : CallableFunction σ) (args : String) (s : σ) :
    Except DispatchError String × σ :=
  f.func args s

/-- Schema metadata (`schemars::schema::Metadata`), reduced to the `title`
field the code touches plus an opaque remainder. -/
structure SchemaMetadata where
  title : Option String
  rest : String
deriving DecidableEq, Repr

/-- A schema object (`schemars::schema::SchemaObject`), reduced to the
`metadata` field the code touches plus an opaque structural description. -/
structure SchemaObject where
  metadata : Option SchemaMetadata
  rest : String
deriving DecidableEq, Repr

/-- A derived root schema (`schemars::schema::RootSchema`): the `$schema`
meta-schema reference and the schema object. -/
structure RootSchema where
  meta_schema : Option String
  schema : SchemaObject
deriving DecidableEq, Repr

/-- The advertised `parameters` JSON value: either JSON `null`
(`Value::Null`, the unit/no-argument case) or the serialized schema. -/
inductive SchemaValue where
  | null
  | fromSchema (s : RootSchema)
deriving DecidableEq, Repr

/-- A function definition advertised to the model
(`openai::chat::ChatCompletionFunctionDefinition`). -/
structure ChatCompletionFunctionDefinition where
  name : String
  description : Option String
  parameters : Option SchemaValue
deriving DecidableEq, Repr

/-- The tool registry (`CallableFunctionList` in src/function.rs). -/
structure CallableFunctionList (σ : Type) where
  functions : List (CallableFunction σ)
  function_definitions : List ChatCompletionFunctionDefinition

/-- The empty registry (`CallableFunctionList::default()`). -/
def CallableFunctionList.empty (σ : Type) : CallableFunctionList σ :=
  ⟨[], []⟩

/-- The type-erasing wrapper closure built by
`CallableFunctionList::add_function` (the `caller` closure, src/function.rs
lines 43-52): substitute the sentinel `"null"` for the raw payload when the
argument type is the unit type, decode, invoke the host function, encode.
`isUnit` embeds the `TypeId::of::<()>() == TypeId::of::<A>()` test; `decode`
and `encode` embed `serde_json::from_str::<A>` and `serde_json::to_string`. -/
def mkCaller {A R σ : Type} (isUnit : Bool) (decode : String → Except String A)
    (f : A → σ → R × σ) (encode : R → Except String String)
    (args_str : String) (s : σ) : Except DispatchError String × σ :=
  let args_str := if isUnit then "null" else args_str
  match decode args_str with
  | .error e => (.error (.Deserialize e), s)
  | .ok args =>
    let (result, s') := f args s
    match encode result with
    | .error e => (.error (.Serialize e), s')
    | .ok out => (.ok out, s')

/-- Strip the meta-schema reference and the title from a derived schema
(src/function.rs lines 62-64).  `none` models the panic of
`metadata.as_mut().unwrap()` when the derived schema has no metadata. -/
def stripSchema (schema : RootSchema) : Option RootSchema :=
  match schema.schema.metadata with
  | none => none
  | some m =>
    some { meta_schema := none,
           schema := { metadata := some { m with title := none },
                       rest := schema.schema.rest } }

/-- `CallableFunctionList::add_function`.  `schemaForA` embeds
`schema_for!(A)`.  `none` models a panic: either the `assert!` on a
duplicate name or the metadata `unwrap`. -/
def CallableFunctionList.add_function {A R σ : Type} (L : CallableFunctionList σ)
    (name description : String) (isUnit : Bool) (schemaForA : RootSchema)
    (decode : String → Except String A) (encode : R → Except String String)
    (f : A → σ → R × σ) : Option (CallableFunctionList σ) :=
  if L.function_definitions.any (fun e => e.name == name) then
    none
  else
    let argument_schema : Option SchemaValue :=
      if isUnit then some .null else (stripSchema schemaForA).map .fromSchema
    match argument_schema with
    | none => none
    | some argument_schema =>
      some { functions := L.functions ++ [⟨name, mkCaller isUnit decode f encode⟩],
             function_definitions := L.function_definitions ++
               [⟨name, some description, some argument_schema⟩] }

/-- `CallableFunctionList::dispatch` (src/function.rs lines 83-101): look the
tool up by name, run its erased closure on the raw arguments, wrap a
successful output as a `Function`-role message carrying the name of the request. -/
def CallableFunctionList.dispatch (L : CallableFunctionList σ)
    (call : ChatCompletionFunctionCall) (s : σ) :
    Except DispatchError ChatCompletionMessage × σ :=
  match L.functions.find? (fun f => f.name == call.name) with
  | none => (.error .FunctionNotFound, s)
  | some f =>
    match f.call call.arguments s with
    | (.error e, s') => (.error e, s')
    | (.ok output, s') =>
      (.ok { role := .Function, content := some output,
             name := some call.name, function_call := none }, s')

/-- Substring occurrence on character lists (embeds Rust `str::contains` for a
string pattern). -/
def charsContain (needle : List Char) : List Char → Bool
  | [] => needle.isEmpty
  | c :: cs => needle.isPrefixOf (c :: cs) || charsContain needle cs

/-- Whether a string starts with a given character (embeds Rust
`str::starts_with(char)`). -/
def startsWithChar (s : String) (c : Char) : Bool :=
  match s.toList with
  | [] => false
  | c0 :: _ => c0 == c

/-- The path-rejection test shared by `Project::read_file` and
`Project::write_file` (src/project.rs lines 32 and 53):
`path.starts_with('/') || path.starts_with('.') || path.contains("..")`. -/
def isInvalidPath (path : String) : Bool :=
  startsWithChar path '/' || startsWithChar path '.' ||
    charsContain ['.', '.'] path.toList

/-- Split a character list at `'/'` separators. -/
def splitSlashAux (cur : List Char) : List Char → List (List Char)
  | [] => [cur.reverse]
  | c :: cs =>
    if c == '/' then cur.reverse :: splitSlashAux [] cs
    else splitSlashAux (c :: cur) cs

/-- The normal components of a path string, as Rust `Path::components` yields
them for the paths this program builds: empty segments and `"."` segments are
normalized away. -/
def pathComponents (s : String) : List String :=
  ((splitSlashAux [] s.toList).map String.mk).filter
    (fun c => decide (c ≠ "") && decide (c ≠ "."))

/-- `ReadFileResult` (src/project.rs). -/
structure ReadFileResult where
  error : Option String
  contents : Option String
deriving DecidableEq, Repr

/-- `WriteFileResult` (src/project.rs). -/
structure WriteFileResult where
  error : Option String
deriving DecidableEq, Repr

/-- `ReadFileArgs` (src/project.rs). -/
structure ReadFileArgs where
  path : String
deriving DecidableEq, Repr

/-- `WriteFileArgs` (src/project.rs). -/
structure WriteFileArgs where
  path : String
  contents : String
deriving DecidableEq, Repr

/-- A `Project` (src/project.rs): the root directory path, kept as its list
of normal components, and the dirty flag (`AtomicBool`; the program is a
single logical thread of control, so the flag is an ordinary boolean here). -/
structure Project where
  path : List String
  dirty : Bool
deriving DecidableEq, Repr

/-- `Project::new`: the flag starts out `false`. -/
def Project.new (path : List String) : Project :=
  ⟨path, false⟩

/-- `Project::is_dirty`. -/
def Project.is_dirty (p : Project) : Bool :=
  p.dirty

/-- `Project.clear_dirty` returns the project with the flag cleared
(`self.dirty.store(false)`). -/
def Project.clear_dirty (p : Project) : Project :=
  { p with dirty := false }

/-- `Path::parent` on a component list: `none` for a path with no normal
components (the filesystem root or the empty path), otherwise the path with
its last component dropped. -/
def pathParent (components : List String) : Option (List String) :=
  match components with
  | [] => none
  | _ :: _ => some components.dropLast

/-- `Project::read_file` (src/project.rs lines 31-50).  The outcome of
`std::fs::read_to_string` on the joined path is the oracle `fsRead`
(`some contents` on success, `none` on an I/O error); the project state is
not touched by a read. -/
def Project.read_file (_p : Project) (fsRead : Option String) (path : String) :
    ReadFileResult :=
  if isInvalidPath path then
    { error := some "Invalid path.", contents := none }
  else
    match fsRead with
    | some contents => { error := none, contents := some contents }
    | none => { error := some "Cannot read file.", contents := none }

/-- `Project::write_file` (src/project.rs lines 52-77).  The outcome of
`std::fs::write` on the joined path is the oracle `fsWriteOk`;
`create_dir_all` panics rather than returns on failure, so its success is
assumed.  The dirty flag is stored `true` before the write is attempted. -/
def Project.write_file (p : Project) (fsWriteOk : Bool) (path : String)
    (_contents : String) : WriteFileResult × Project :=
  if isInvalidPath path then
    ({ error := some "Invalid path." }, p)
  else
    let joined := p.path ++ pathComponents path
    match pathParent joined with
    | none => ({ error := some "Invalid path." }, p)
    | some _parent =>
      let p := { p with dirty := true }
      if fsWriteOk then ({ error := none }, p)
      else ({ error := some "Cannot write file." }, p)

/-- Outcome of `Chat::execute` (src/main.rs lines 79-101).  `done` is the
`break` out of the loop; `crashed` is the panic of `.unwrap()` on a failed
dispatch; `outOfReplies` means the supplied model-reply oracle was exhausted
while the loop was still re-querying. -/
inductive ExecOutcome (σ : Type) where
  | done (messages : List ChatCompletionMessage) (s : σ)
  | crashed
  | outOfReplies (messages : List ChatCompletionMessage) (s : σ)

/-- `Chat::execute` (src/main.rs lines 79-101), driven by the model-endpoint
oracle `replies`: the list of messages the chat endpoint would return on
successive calls.  Each turn appends the reply to the transcript; a reply
carrying a `function_call` is dispatched, the resulting tool message is
appended and the loop re-queries; a reply without one breaks the loop. -/
def Chat.execute (functions : CallableFunctionList σ)
    (replies : List ChatCompletionMessage)
    (messages : List ChatCompletionMessage) (s : σ) : ExecOutcome σ :=
  match replies with
  | [] => .outOfReplies messages s
  | returned_message :: rest =>
    let messages := messages ++ [returned_message]
    match returned_message.function_call with
    | some call =>
      match functions.dispatch call s with
      | (.error _, _) => .crashed
      | (.ok message, s') => Chat.execute functions rest (messages ++ [message]) s'
    | none => .done messages s

/-- What one `chat.send_message(..)` turn of the convergence loop produced,
as far as the loop can observe it (src/main.rs lines 178-190): whether some
`dst_write_file` call succeeded during the turn (which stores `true` into the
dirty flag of the destination project), and what `./run_cargo_check` would print
were it invoked after the turn (`none` = empty output = no diagnostics). -/
structure ConvergenceTurn where
  wrote : Bool
  checkOutput : Option String
deriving DecidableEq, Repr

/-- How the convergence loop in `main` ended. -/
inductive ConvergeResult where
  | noMutation
  | buildOk
  | outOfTurns
deriving DecidableEq, Repr

/-- The instruction prefixed to the `cargo check` diagnostics
(src/main.rs line 185). -/
def fixErrorsPrefix : String :=
  "Apparently there are some problems with the code. Please correct them. Here is the `cargo check` output:\n"

/-- The convergence loop of `main` (src/main.rs lines 177-190), driven by the
oracle `turns`, one entry per `send_message` call.  `message` is the pending
work instruction, `dirty` the mutation flag of the destination project when the
iteration starts.  Returns the instructions actually sent, in order, and how
the loop ended. -/
def convergenceLoop (turns : List ConvergenceTurn) (message : String)
    (dirty : Bool) : List String × ConvergeResult :=
  match turns with
  | [] => ([], .outOfTurns)
  | turn :: rest =>
    let dirty := dirty || turn.wrote
    if dirty then
      match turn.checkOutput with
      | some errors =>
        let next := convergenceLoop rest (fixErrorsPrefix ++ errors) false
        (message :: next.1, next.2)
      | none => ([message], .buildOk)
    else
      ([message], .noMutation)

/-- `serde_json::from_str::<()>`: the unit type deserializes from JSON `null`
only (the sentinel `add_function` substitutes for the raw payload). -/
def serdeDecodeUnit (s : String) : Except String Unit :=
  if s = "null" then .ok () else .error ("invalid type, expected null: " ++ s)

/-- `FuncResult` from the `unit_type_args` test in src/function.rs. -/
structure FuncResult where
  message : String
deriving DecidableEq, Repr

/-- `serde_json::to_string` for `FuncResult` (derived `Serialize`), for
message strings that need no escaping. -/
def serdeEncodeFuncResult (r : FuncResult) : Except String String :=
  .ok ("\x7b\"message\":\"" ++ r.message ++ "\"\x7d")

/-- `serde_json::from_str::<ReadFileArgs>` (derived `Deserialize`), for the
canonical one-field object layout: anything else is a decode error. -/
def serdeDecodeReadFileArgs (s : String) : Except String ReadFileArgs :=
  let cs := s.toList
  let pre := "\x7b\"path\":\"".toList
  let suf := "\"\x7d".toList
  if pre.isPrefixOf cs && suf.reverse.isPrefixOf cs.reverse then
    .ok ⟨String.mk ((cs.drop pre.length).dropLast.dropLast)⟩
  else
    .error ("invalid JSON for ReadFileArgs: " ++ s)

/-- `serde_json::to_string` for `ReadFileResult` (derived `Serialize`), for
field strings that need no escaping. -/
def serdeEncodeReadFileResult (r : ReadFileResult) : Except String String :=
  let fld := fun (v : Option String) =>
    match v with
    | none => "null"
    | some t => "\"" ++ t ++ "\""
  .ok ("\x7b\"error\":" ++ fld r.error ++ ",\"contents\":" ++ fld r.contents ++ "\x7d")

/-- An arbitrary derived root schema, standing in for `schema_for!(A)` at
concrete instantiations. -/
def sampleSchemaFor (title : String) : RootSchema :=
  { meta_schema := some "http://json-schema.org/draft-07/schema#",
    schema := { metadata := some { title := some title, rest := "" },
                rest := "object" } }

/-- The registry built by the `unit_type_args` test in src/function.rs: one
tool named `unit_test` with unit arguments whose host function returns
`FuncResult \x7b message: "Hello" \x7d`. -/
def unitTestRegistry : CallableFunctionList Unit :=
  ((CallableFunctionList.empty Unit).add_function "unit_test" "unit test function"
      true (sampleSchemaFor "unit") serdeDecodeUnit serdeEncodeFuncResult
      (fun _ s => ({ message := "Hello" }, s))).getD (CallableFunctionList.empty Unit)

/-- A registry holding the `src_read_file` tool over a sample project, its
filesystem read outcome fixed to an I/O error. -/
def readToolRegistry : CallableFunctionList Unit :=
  ((CallableFunctionList.empty Unit).add_function "src_read_file"
      "Reads the contents of a file in the source project directory."
      false (sampleSchemaFor "ReadFileArgs") serdeDecodeReadFileArgs
      serdeEncodeReadFileResult
      (fun (a : ReadFileArgs) (s : Unit) =>
        ((Project.new ["src_proj"]).read_file none a.path, s))).getD
    (CallableFunctionList.empty Unit)

/-- C1: for every registry and every invocation request whose name matches no
registered tool, `dispatch` returns the `FunctionNotFound` error value with
the state untouched — no host function runs, and the result is an ordinary
error value, not a panic. -/
theorem dispatch_unknown_name_not_found {σ : Type} (L : CallableFunctionList σ)
    (call : ChatCompletionFunctionCall) (s : σ)
    (h : ∀ f ∈ L.functions, f.name ≠ call.name) :
    L.dispatch call s = (.error .FunctionNotFound, s) := by
  unfold CallableFunctionList.dispatch
  have hf : L.functions.find? (fun f => f.name == call.name) = none := by
    rw [List.find?_eq_none]
    intro f hfmem
    simpa using h f hfmem
  rw [hf]

/-- C1 witness: the empty registry maps the unknown name `nope` to
`FunctionNotFound`. -/
theorem dispatch_unknown_name_not_found_witness :
    (CallableFunctionList.empty Unit).dispatch ⟨"nope", "\x7b\x7d"⟩ () =
      (.error .FunctionNotFound, ()) :=
  dispatch_unknown_name_not_found (CallableFunctionList.empty Unit)
    ⟨"nope", "\x7b\x7d"⟩ ()
    (by intro f hf; simp [CallableFunctionList.empty] at hf)

/-- C2: for a registered tool with a non-unit argument shape, dispatching raw
argument text that fails to decode returns the `Deserialize` error carrying
the decode diagnostic, with the state unchanged — the host function `f`
(universally quantified) is never invoked, so none of its effects occur. -/
theorem dispatch_decode_failure {A R σ : Type} (L : CallableFunctionList σ)
    (decode : String → Except String A) (f : A → σ → R × σ)
    (encode : R → Except String String) (call : ChatCompletionFunctionCall)
    (s : σ) (nm e : String)
    (hfind : L.functions.find? (fun g => g.name == call.name) =
      some ⟨nm, mkCaller false decode f encode⟩)
    (hdec : decode call.arguments = .error e) :
    L.dispatch call s = (.error (.Deserialize e), s) := by
  unfold CallableFunctionList.dispatch
  rw [hfind]
  simp [CallableFunction.call, mkCaller, hdec]

/-- C2 witness: dispatching `src_read_file` with non-JSON argument text
yields the decode diagnostic and touches nothing. -/
theorem dispatch_decode_failure_witness :
    readToolRegistry.dispatch ⟨"src_read_file", "not json"⟩ () =
      (.error (.Deserialize "invalid JSON for ReadFileArgs: not json"), ()) :=
  dispatch_decode_failure readToolRegistry serdeDecodeReadFileArgs
    (fun (a : ReadFileArgs) (s : Unit) =>
      ((Project.new ["src_proj"]).read_file none a.path, s))
    serdeEncodeReadFileResult ⟨"src_read_file", "not json"⟩ ()
    "src_read_file" "invalid JSON for ReadFileArgs: not json" rfl rfl

/-- C3: dispatching a registered tool whose host function result encodes to
text `T` produces a message whose content is exactly `T`, whose role is the
tool (`Function`) role, and whose name is the name of the request. -/
theorem dispatch_roundtrip {A R σ : Type} (L : CallableFunctionList σ)
    (isUnit : Bool) (decode : String → Except String A) (f : A → σ → R × σ)
    (encode : R → Except String String) (call : ChatCompletionFunctionCall)
    (s s' : σ) (nm T : String) (a : A) (r : R)
    (hfind : L.functions.find? (fun g => g.name == call.name) =
      some ⟨nm, mkCaller isUnit decode f encode⟩)
    (hdec : decode (if isUnit then "null" else call.arguments) = .ok a)
    (hf : f a s = (r, s'))
    (henc : encode r = .ok T) :
    L.dispatch call s =
      (.ok { role := .Function, content := some T,
             name := some call.name, function_call := none }, s') := by
  unfold CallableFunctionList.dispatch
  rw [hfind]
  simp [CallableFunction.call, mkCaller, hdec, hf, henc]

/-- C3 witness: the `unit_type_args` scenario — a tool returning
`FuncResult \x7b message: "Hello" \x7d` dispatched with `\x7b\x7d` produces
content `\x7b"message":"Hello"\x7d`. -/
theorem dispatch_roundtrip_witness :
    unitTestRegistry.dispatch ⟨"unit_test", "\x7b\x7d"⟩ () =
      (.ok { role := .Function, content := some "\x7b\"message\":\"Hello\"\x7d",
             name := some "unit_test", function_call := none }, ()) :=
  dispatch_roundtrip unitTestRegistry true serdeDecodeUnit
    (fun _ s => ({ message := "Hello" }, s)) serdeEncodeFuncResult
    ⟨"unit_test", "\x7b\x7d"⟩ () () "unit_test" "\x7b\"message\":\"Hello\"\x7d"
    () { message := "Hello" } (by rfl) rfl rfl rfl

/-- C4: dispatching a tool registered with the unit argument shape never
structurally decodes the supplied payload (the result is the same for every
raw argument text: the sentinel `"null"` replaces it and decodes to the
canonical unit value before invocation), and an empty payload such as
`\x7b\x7d` succeeds whenever the result encoder does. -/
theorem dispatch_unit_payload {R σ : Type} (L : CallableFunctionList σ)
    (f : Unit → σ → R × σ) (encode : R → Except String String)
    (nm name : String) (s : σ)
    (hfind : L.functions.find? (fun g => g.name == name) =
      some ⟨nm, mkCaller true serdeDecodeUnit f encode⟩) :
    (∀ args args' : String,
       L.dispatch ⟨name, args⟩ s = L.dispatch ⟨name, args'⟩ s)
    ∧ (∀ out : String, encode (f () s).1 = .ok out →
       L.dispatch ⟨name, "\x7b\x7d"⟩ s =
         (.ok { role := .Function, content := some out,
                name := some name, function_call := none }, (f () s).2)) := by
  constructor
  · intro args args'
    unfold CallableFunctionList.dispatch
    rw [hfind]
    simp [CallableFunction.call, mkCaller]
  · intro out henc
    unfold CallableFunctionList.dispatch
    rw [hfind]
    rcases hfs : f () s with ⟨r, s'⟩
    rw [hfs] at henc
    simp [CallableFunction.call, mkCaller, serdeDecodeUnit, hfs, henc]

/-- C4 witness: the unit-argument tool gives the same result for a payload
that is not even JSON as for the empty payload. -/
theorem dispatch_unit_payload_witness :
    unitTestRegistry.dispatch ⟨"unit_test", "definitely not JSON"⟩ () =
      unitTestRegistry.dispatch ⟨"unit_test", "\x7b\x7d"⟩ () :=
  (dispatch_unit_payload unitTestRegistry (fun _ s => ({ message := "Hello" }, s))
    serdeEncodeFuncResult "unit_test" "unit_test" () (by rfl)).1
    "definitely not JSON" "\x7b\x7d"

/-- C5: the conversation loop reaches `done` exactly when a model reply
carries no tool invocation: a reply without a `function_call` ends the loop
with that reply appended to the transcript; a reply carrying an invocation
has it dispatched, the reply and then the tool message appended in order,
and the model queried again; and as long as every reply carries an
invocation the loop never reaches `done`. -/
theorem execute_loop_spec {σ : Type} (functions : CallableFunctionList σ) :
    (∀ (r : ChatCompletionMessage) (rs msgs : List ChatCompletionMessage) (s : σ),
       r.function_call = none →
       Chat.execute functions (r :: rs) msgs s = .done (msgs ++ [r]) s)
    ∧ (∀ (r : ChatCompletionMessage) (rs msgs : List ChatCompletionMessage)
         (s : σ) (call : ChatCompletionFunctionCall)
         (m : ChatCompletionMessage) (s' : σ),
       r.function_call = some call →
       functions.dispatch call s = (.ok m, s') →
       Chat.execute functions (r :: rs) msgs s =
         Chat.execute functions rs (msgs ++ [r] ++ [m]) s')
    ∧ (∀ (rs msgs : List ChatCompletionMessage) (s : σ),
       (∀ r ∈ rs, r.function_call ≠ none) →
       ∀ (out : List ChatCompletionMessage) (s' : σ),
         Chat.execute functions rs msgs s ≠ .done out s') := by
  refine ⟨?_, ?_, ?_⟩
  · intro r rs msgs s hr
    obtain ⟨role, content, nm2, fc⟩ := r
    change fc = none at hr
    subst hr
    rfl
  · intro r rs msgs s call m s' hr hdisp
    obtain ⟨role, content, nm2, fc⟩ := r
    change fc = some call at hr
    subst hr
    show (match functions.dispatch call s with
          | (Except.error _, _) => ExecOutcome.crashed
          | (Except.ok message, t) =>
            Chat.execute functions rs
              (msgs ++ [⟨role, content, nm2, some call⟩] ++ [message]) t) =
        Chat.execute functions rs (msgs ++ [⟨role, content, nm2, some call⟩] ++ [m]) s'
    rw [hdisp]
  · intro rs
    induction rs with
    | nil =>
      intro msgs s _ out s'
      exact fun h => ExecOutcome.noConfusion h
    | cons r rest ih =>
      intro msgs s hall out s'
      obtain ⟨role, content, nm2, fc⟩ := r
      have hr := hall _ (List.mem_cons_self _ _)
      change fc ≠ none at hr
      rcases fc with _ | call
      · exact absurd rfl hr
      · show (match functions.dispatch call s with
              | (Except.error _, _) => ExecOutcome.crashed
              | (Except.ok message, t) =>
                Chat.execute functions rest
                  (msgs ++ [⟨role, content, nm2, some call⟩] ++ [message]) t) ≠
            ExecOutcome.done out s'
        rcases hdisp : functions.dispatch call s with ⟨res, s''⟩
        rcases res with e | m
        · exact fun h => ExecOutcome.noConfusion h
        · exact ih _ _ (fun x hx => hall x (List.mem_cons_of_mem _ hx)) out s'

/-- C5 witness: a reply with no invocation ends the loop at once with the
transcript extended by that reply; under an all-invoking reply stream the
loop is never `done`. -/
theorem execute_loop_spec_witness :
    Chat.execute (CallableFunctionList.empty Unit)
        [{ role := .Assistant, content := some "All done." }] [] () =
      .done ([] ++ [{ role := .Assistant, content := some "All done." }]) () :=
  (execute_loop_spec (CallableFunctionList.empty Unit)).1
    { role := .Assistant, content := some "All done." } [] [] () rfl

/-- C6: the convergence loop stops (issuing no further instruction) as soon
as an iteration ends with the mutation flag unset, even though earlier
iterations may have mutated (each mutating iteration clears the flag before
looping, so the recursion restarts from an unset flag); when the flag is set
it stops if the build check reports no diagnostics, and otherwise the next
instruction is the fix-errors prefix followed by the diagnostic text. -/
theorem convergence_loop_spec :
    (∀ (t : ConvergenceTurn) (rest : List ConvergenceTurn) (message : String),
       t.wrote = false →
       convergenceLoop (t :: rest) message false = ([message], .noMutation))
    ∧ (∀ (t : ConvergenceTurn) (rest : List ConvergenceTurn)
         (message : String) (dirty : Bool),
       (dirty || t.wrote) = true → t.checkOutput = none →
       convergenceLoop (t :: rest) message dirty = ([message], .buildOk))
    ∧ (∀ (t : ConvergenceTurn) (rest : List ConvergenceTurn)
         (message errors : String) (dirty : Bool),
       (dirty || t.wrote) = true → t.checkOutput = some errors →
       convergenceLoop (t :: rest) message dirty =
         (message :: (convergenceLoop rest (fixErrorsPrefix ++ errors) false).1,
          (convergenceLoop rest (fixErrorsPrefix ++ errors) false).2)) := by
  refine ⟨?_, ?_, ?_⟩
  · intro t rest message hw
    unfold convergenceLoop
    rw [hw]
    rfl
  · intro t rest message dirty hd hc
    conv_lhs => unfold convergenceLoop
    rw [hd, hc]
    rfl
  · intro t rest message errors dirty hd hc
    conv_lhs => unfold convergenceLoop
    rw [hd, hc]
    rfl

/-- C6 witness: a first turn that mutates and fails the build check feeds the
diagnostics into the next instruction; the second turn does not mutate, and
the loop stops there with no further instruction. -/
theorem convergence_loop_spec_witness :
    convergenceLoop [⟨true, some "error[E0308]"⟩, ⟨false, none⟩]
        "Now create Rust project." false =
      ("Now create Rust project." ::
        (convergenceLoop [⟨false, none⟩] (fixErrorsPrefix ++ "error[E0308]") false).1,
       (convergenceLoop [⟨false, none⟩] (fixErrorsPrefix ++ "error[E0308]") false).2) :=
  (convergence_loop_spec.2.2) ⟨true, some "error[E0308]"⟩ [⟨false, none⟩]
    "Now create Rust project." "error[E0308]" false rfl rfl

/-- C7: a path that is absolute, begins with a dot, or contains a
parent-directory traversal is rejected by `read_file` and `write_file` with
the typed result `\x7b error: "Invalid path." \x7d`, with no filesystem
access (the result is independent of the filesystem oracle and the project
state is untouched); a failed filesystem read on a valid path yields the
typed result `\x7b error: "Cannot read file." \x7d`. -/
theorem file_tools_path_validation :
    (∀ (p : Project) (fsRead : Option String) (path : String),
       isInvalidPath path = true →
       p.read_file fsRead path = { error := some "Invalid path.", contents := none })
    ∧ (∀ (p : Project) (fsWriteOk : Bool) (path contents : String),
       isInvalidPath path = true →
       p.write_file fsWriteOk path contents = ({ error := some "Invalid path." }, p))
    ∧ (∀ (p : Project) (path : String),
       isInvalidPath path = false →
       p.read_file none path = { error := some "Cannot read file.", contents := none }) := by
  refine ⟨?_, ?_, ?_⟩
  · intro p fsRead path h
    unfold Project.read_file
    rw [h]
    rfl
  · intro p fsWriteOk path contents h
    unfold Project.write_file
    rw [h]
    rfl
  · intro p path h
    unfold Project.read_file
    rw [h]
    rfl

/-- C7 witness: the absolute path `/etc/passwd` is rejected by both tools
whatever the filesystem would have answered, and a valid path whose read
fails yields the read-error result. -/
theorem file_tools_path_validation_witness :
    (Project.new ["proj"]).read_file (some "secret") "/etc/passwd" =
        { error := some "Invalid path.", contents := none }
    ∧ (Project.new ["proj"]).write_file true "/etc/passwd" "x" =
        ({ error := some "Invalid path." }, Project.new ["proj"])
    ∧ (Project.new ["proj"]).read_file none "src/main.rs" =
        { error := some "Cannot read file.", contents := none } :=
  ⟨file_tools_path_validation.1 (Project.new ["proj"]) (some "secret") "/etc/passwd"
     (by decide),
   file_tools_path_validation.2.1 (Project.new ["proj"]) true "/etc/passwd" "x"
     (by decide),
   file_tools_path_validation.2.2 (Project.new ["proj"]) "src/main.rs" (by decide)⟩

/-- C8: the mutation flag reads `false` immediately after `clear_dirty`, and
reads `true` immediately after any `write_file` call that succeeds (returns
no error), for every project state. -/
theorem dirty_flag_semantics :
    (∀ p : Project, p.clear_dirty.is_dirty = false)
    ∧ (∀ (p : Project) (fsWriteOk : Bool) (path contents : String)
         (res : WriteFileResult) (p' : Project),
       p.write_file fsWriteOk path contents = (res, p') →
       res.error = none → p'.is_dirty = true) := by
  constructor
  · intro p
    rfl
  · intro p fsWriteOk path contents res p' hw herr
    unfold Project.write_file at hw
    by_cases hv : isInvalidPath path = true
    · rw [hv] at hw
      simp at hw
      rw [← hw.1] at herr
      simp at herr
    · rw [Bool.not_eq_true] at hv
      rw [hv] at hw
      simp only [Bool.false_eq_true, if_false] at hw
      rcases hp : pathParent (p.path ++ pathComponents path) with _ | parent
      · rw [hp] at hw
        simp at hw
        rw [← hw.1] at herr
        simp at herr
      · rw [hp] at hw
        rcases fsWriteOk with _ | _
        · simp at hw
          rw [← hw.1] at herr
          simp at herr
        · simp at hw
          rw [← hw.2]
          rfl

/-- C8 witness: clearing a dirty project reads `false`; a successful write
into a fresh project reads `true`. -/
theorem dirty_flag_semantics_witness :
    (Project.mk ["proj"] true).clear_dirty.is_dirty = false
    ∧ Project.is_dirty (Project.mk ["proj"] true) = true :=
  ⟨dirty_flag_semantics.1 (Project.mk ["proj"] true),
   dirty_flag_semantics.2 (Project.new ["proj"]) true "src/main.rs" "fn main() \x7b\x7d"
     { error := none } (Project.mk ["proj"] true) (by decide) rfl⟩

/-- C9: for a non-unit argument shape the advertised definition carries the
derived schema with its meta-schema reference and metadata title both
stripped — a pure function of the structural description `schemaForA`, with
everything else preserved; for the unit shape the definition carries the
null (absent) schema instead of a structured empty one. -/
theorem schema_advertisement {A R σ : Type} :
    (∀ (L : CallableFunctionList σ) (name description : String)
       (schemaForA : RootSchema) (decode : String → Except String A)
       (encode : R → Except String String) (f : A → σ → R × σ)
       (m : SchemaMetadata) (L' : CallableFunctionList σ),
       schemaForA.schema.metadata = some m →
       L.add_function name description false schemaForA decode encode f = some L' →
       L'.function_definitions = L.function_definitions ++
         [{ name := name, description := some description,
            parameters := some (.fromSchema
              { meta_schema := none,
                schema := { metadata := some { title := none, rest := m.rest },
                            rest := schemaForA.schema.rest } }) }])
    ∧ (∀ (L : CallableFunctionList σ) (name description : String)
       (schemaForA : RootSchema) (decode : String → Except String A)
       (encode : R → Except String String) (f : A → σ → R × σ)
       (L' : CallableFunctionList σ),
       L.add_function name description true schemaForA decode encode f = some L' →
       L'.function_definitions = L.function_definitions ++
         [{ name := name, description := some description,
            parameters := some .null }]) := by
  constructor
  · intro L name description schemaForA decode encode f m L' hm hadd
    unfold CallableFunctionList.add_function at hadd
    cases hdup : L.function_definitions.any (fun e => e.name == name) with
    | true =>
      rw [hdup] at hadd
      simp at hadd
    | false =>
      rw [hdup] at hadd
      unfold stripSchema at hadd
      rw [hm] at hadd
      simp at hadd
      subst hadd
      rfl
  · intro L name description schemaForA decode encode f L' hadd
    unfold CallableFunctionList.add_function at hadd
    cases hdup : L.function_definitions.any (fun e => e.name == name) with
    | true =>
      rw [hdup] at hadd
      simp at hadd
    | false =>
      rw [hdup] at hadd
      simp at hadd
      subst hadd
      rfl

/-- C9 witness: registering `src_read_file` advertises the derived
`ReadFileArgs` schema stripped of its meta-schema reference and title, and
registering the unit tool `unit_test` advertises the null schema. -/
theorem schema_advertisement_witness :
    readToolRegistry.function_definitions =
      [] ++ [{ name := "src_read_file",
               description := some "Reads the contents of a file in the source project directory.",
               parameters := some (.fromSchema
                 { meta_schema := none,
                   schema := { metadata := some { title := none, rest := "" },
                               rest := "object" } }) }]
    ∧ unitTestRegistry.function_definitions =
      [] ++ [{ name := "unit_test", description := some "unit test function",
               parameters := some .null }] :=
  ⟨schema_advertisement.1 (CallableFunctionList.empty Unit) "src_read_file"
     "Reads the contents of a file in the source project directory."
     (sampleSchemaFor "ReadFileArgs") serdeDecodeReadFileArgs
     serdeEncodeReadFileResult
     (fun (a : ReadFileArgs) (s : Unit) =>
       ((Project.new ["src_proj"]).read_file none a.path, s))
     { title := some "ReadFileArgs", rest := "" } readToolRegistry rfl (by rfl),
   schema_advertisement.2 (CallableFunctionList.empty Unit) "unit_test"
     "unit test function" (sampleSchemaFor "unit") serdeDecodeUnit
     serdeEncodeFuncResult (fun _ s => ({ message := "Hello" }, s))
     unitTestRegistry (by rfl)⟩

/-- C10: a `write_file` call whose path passes validation stores `true` into
the mutation flag before the filesystem write is attempted, so the flag
reads `true` afterwards even when the underlying write fails; a call
rejected for an invalid path leaves the project, and hence the flag,
unchanged.  The project root is an existing directory, so it has at least
one path component. -/
theorem write_file_dirty_ordering :
    (∀ (p : Project) (fsWriteOk : Bool) (path contents : String),
       p.path ≠ [] → isInvalidPath path = false →
       ((p.write_file fsWriteOk path contents).2).is_dirty = true)
    ∧ (∀ (p : Project) (fsWriteOk : Bool) (path contents : String),
       isInvalidPath path = true →
       (p.write_file fsWriteOk path contents).2 = p) := by
  constructor
  · intro p fsWriteOk path contents hroot hv
    unfold Project.write_file
    rw [hv]
    simp only [Bool.false_eq_true, if_false]
    rcases hm : p.path ++ pathComponents path with _ | ⟨c, cs⟩
    · exact absurd (List.append_eq_nil.mp hm).1 hroot
    · cases fsWriteOk
      · rfl
      · rfl
  · intro p fsWriteOk path contents hv
    unfold Project.write_file
    rw [hv]
    rfl

/-- C10 witness: a valid-path write whose filesystem write fails still
leaves the flag set; an invalid-path write leaves the fresh project
unchanged. -/
theorem write_file_dirty_ordering_witness :
    (((Project.new ["proj"]).write_file false "src/main.rs" "fn main() \x7b\x7d").2).is_dirty = true
    ∧ ((Project.new ["proj"]).write_file true ".env" "KEY=1").2 = Project.new ["proj"] :=
  ⟨write_file_dirty_ordering.1 (Project.new ["proj"]) false "src/main.rs"
     "fn main() \x7b\x7d" (by decide) (by decide),
   write_file_dirty_ordering.2 (Project.new ["proj"]) true ".env" "KEY=1" (by decide)⟩
